import Mathlib

/-!
Shallow embedding of the mailslot kernel module (src/mailslot.c).

The C module keeps a fixed array `instances` of `INSTANCES` mailslots, each
holding a fixed array of `MAILSLOT_STORAGE` pre-allocated message slots and a
`messages_count` occupancy counter, plus an `opened` flag; a global
`instances_count` counts opened mailslots.  We embed the state as Lean
structures and each file operation (`mailslot_open`, `mailslot_release`,
`mailslot_read`, `mailslot_write`) and helper (`pushMessage`, `getMessage`,
`clearMailslot`) as a pure function from state to result and new state.

Modelling conventions:
* A message payload is a `String` standing for the sequence of bytes the C
  code moves with `memcpy`; `len` mirrors the `len` field of `struct message`.
* `memcpy(dst, buff, len)` at the single `pushMessage` call site copies the
  `len` bytes of the caller's buffer, so `pushMessage` takes the buffer
  (`buff : String`) and stores `content := buff`, `len := buff.length`
  with NO bound check against `MESSAGE_SIZE`, exactly as the C code.
* `mutex_lock_interruptible` may fail when the wait is interrupted; this
  non-deterministic outcome is an explicit boolean input `lockInterrupted`
  of `mailslot_read` / `mailslot_write`.
* The C functions report failure as `-1` on distinct branches; following the
  spec's taxonomy we name each branch's outcome (`capacityExceeded` /
  `alreadyOpen` for the two `-1` branches of `mailslot_open`, `notOpen` for
  both `-1` branches of `mailslot_release`, `mailboxFull` for the `-1`
  branch of `pushMessage`).  The branch structure is the code's.
-/

def INSTANCES : Nat := 256

def MESSAGE_SIZE : Nat := 256

def MAILSLOT_STORAGE : Nat := 256

instance : NeZero INSTANCES := ⟨by decide⟩

/-- `struct message`: a byte payload plus its recorded length. -/
structure Message where
  content : String
  len : Nat
deriving DecidableEq, Repr

instance : Inhabited Message := ⟨⟨"", 0⟩⟩

/-- `struct mailslot`: the `opened` flag, the fixed slot array (modelled as a
list of length `MAILSLOT_STORAGE`), and the occupancy counter.  The mutex is
modelled at the call sites (`lockInterrupted`). -/
structure Mailslot where
  opened : Bool
  messages : List Message
  messages_count : Nat
deriving DecidableEq, Repr

/-- Global state: the `instances` array and `instances_count`. -/
structure Registry where
  instances : Fin INSTANCES → Mailslot
  instances_count : Nat

/-- State of one mailslot after `init_module`: flag and counter zeroed,
pre-allocated (empty) slots. -/
def initMailslot : Mailslot :=
  { opened := false
    messages := List.replicate MAILSLOT_STORAGE default
    messages_count := 0 }

/-- Global state after `init_module`: every mailslot fresh, no instance open. -/
def initRegistry : Registry :=
  { instances := fun _ => initMailslot
    instances_count := 0 }

/-- Outcome of `mailslot_open`, naming its three return branches: `-1` at the
`instances_count == INSTANCES` check, `0` on success, `-1` when the mailslot
is already opened. -/
inductive OpenResult
  | ok
  | capacityExceeded
  | alreadyOpen
deriving DecidableEq, Repr

/-- Outcome of `mailslot_release`: `0` on success; its two `-1` branches
(the defensive `instances_count == 0` check and the `opened == 0` check)
are both the spec's `NotOpen` failure. -/
inductive ReleaseResult
  | ok
  | notOpen
deriving DecidableEq, Repr

/-- Outcome of `pushMessage`: `0` on success, `-1` when the mailslot is full. -/
inductive PushResult
  | ok
  | mailboxFull
deriving DecidableEq, Repr

/-- `mailslot_open` (src/mailslot.c:62-87): first the defensive capacity
check, then the `opened` flag check; on success set `opened` and increment
`instances_count`. -/
def mailslot_open (minor : Fin INSTANCES) (r : Registry) :
    OpenResult × Registry :=
  if r.instances_count = INSTANCES then
    (OpenResult.capacityExceeded, r)
  else if (r.instances minor).opened = false then
    (OpenResult.ok,
      { instances := Function.update r.instances minor
          { r.instances minor with opened := true }
        instances_count := r.instances_count + 1 })
  else
    (OpenResult.alreadyOpen, r)

/-- `mailslot_release` (src/mailslot.c:90-119): defensive global-count check,
then the `opened` flag check; on success clear `opened` and decrement
`instances_count`.  Stored messages are never touched. -/
def mailslot_release (minor : Fin INSTANCES) (r : Registry) :
    ReleaseResult × Registry :=
  if r.instances_count = 0 then
    (ReleaseResult.notOpen, r)
  else if (r.instances minor).opened then
    (ReleaseResult.ok,
      { instances := Function.update r.instances minor
          { r.instances minor with opened := false }
        instances_count := r.instances_count - 1 })
  else
    (ReleaseResult.notOpen, r)

/-- What `getMessage` (src/mailslot.c:195-221) leaves in the caller's buffer,
the length it reports through `ret_len`, and its (always `0`) return value. -/
structure GetResult where
  buff : String
  ret_len : Nat
  ret : Int
deriving DecidableEq, Repr

/-- The literal placeholder `getMessage` copies into the buffer when the
mailslot is empty (`char err[] = "No message to read\n"`). -/
def noMessageText : String := "No message to read\n"

/-- `getMessage` (src/mailslot.c:195-221): if `messages_count == 0`, copy the
placeholder and return `0`; else copy `messages[count-1]` (`memcpy` of
`msg->len` bytes), and decrement the counter.  Returns `0` on both paths. -/
def getMessage (m : Mailslot) : GetResult × Mailslot :=
  if m.messages_count = 0 then
    ({ buff := noMessageText, ret_len := noMessageText.length, ret := 0 }, m)
  else
    let msg := (m.messages.getD (m.messages_count - 1) default)
    ({ buff := msg.content.take msg.len, ret_len := msg.len, ret := 0 },
      { m with messages_count := m.messages_count - 1 })

/-- `pushMessage` (src/mailslot.c:224-248): reject with `-1` when the
mailslot is full, else `memcpy` the caller's `len` bytes into slot
`messages[count]` (no check of `len` against `MESSAGE_SIZE`), record the
length, and increment the counter. -/
def pushMessage (buff : String) (m : Mailslot) : PushResult × Mailslot :=
  if m.messages_count = MAILSLOT_STORAGE then
    (PushResult.mailboxFull, m)
  else
    (PushResult.ok,
      { m with
        messages := m.messages.set m.messages_count
          { content := buff, len := buff.length }
        messages_count := m.messages_count + 1 })

/-- `clearMailslot` (src/mailslot.c:250-255): only a `printk`; it changes no
state and is in fact never called by any operation. -/
def clearMailslot (_instance : Fin INSTANCES) (r : Registry) : Int × Registry :=
  (0, r)

/-- `mailslot_read` (src/mailslot.c:122-160).  Result: the returned
`ssize_t`, the bytes written into the caller's buffer (`none` when the buffer
is untouched), and the new state.  If `*off > 0` it returns `0` at once,
before the mutex is even consulted; if the lock wait is interrupted it
returns `-1`; else it runs `getMessage`, appends `"\n"` (`strcat`), sets
`*off = ret_len + 1` and returns it. -/
def mailslot_read (lockInterrupted : Bool) (off : Int)
    (minor : Fin INSTANCES) (r : Registry) :
    Int × Option String × Registry :=
  if off > 0 then
    (0, none, r)
  else if lockInterrupted then
    (-1, none, r)
  else
    let res := getMessage (r.instances minor)
    ((res.1.ret_len : Int) + 1, some (res.1.buff ++ "\n"),
      { r with instances := Function.update r.instances minor res.2 })

/-- `mailslot_write` (src/mailslot.c:163-190): if the lock wait is
interrupted return `-1`; else call `pushMessage` — DISCARDING its return
value — and return `len` (the full byte count) unconditionally. -/
def mailslot_write (lockInterrupted : Bool) (buff : String)
    (minor : Fin INSTANCES) (r : Registry) : Int × Registry :=
  if lockInterrupted then
    (-1, r)
  else
    let res := pushMessage buff (r.instances minor)
    ((buff.length : Int),
      { r with instances := Function.update r.instances minor res.2 })

/-- One externally triggerable operation of the module. -/
inductive Op
  | openOp (minor : Fin INSTANCES)
  | releaseOp (minor : Fin INSTANCES)
  | readOp (lockInterrupted : Bool) (off : Int) (minor : Fin INSTANCES)
  | writeOp (lockInterrupted : Bool) (buff : String) (minor : Fin INSTANCES)

/-- State transition of one operation (result discarded). -/
def stepOp (o : Op) (r : Registry) : Registry :=
  match o with
  | Op.openOp minor => (mailslot_open minor r).2
  | Op.releaseOp minor => (mailslot_release minor r).2
  | Op.readOp li off minor => (mailslot_read li off minor r).2.2
  | Op.writeOp li buff minor => (mailslot_write li buff minor r).2

/-- State after running a sequence of operations from the freshly
initialized module. -/
def runOps (ops : List Op) : Registry :=
  ops.foldl (fun r o => stepOp o r) initRegistry

/-- Number of mailslots of an instance array whose `opened` flag is set. -/
def openedCount (insts : Fin INSTANCES → Mailslot) : Nat :=
  ∑ i : Fin INSTANCES, (if (insts i).opened then 1 else 0)

/-- The registry invariant of the spec: `instances_count` equals the number
of opened mailslots. -/
def registryInv (r : Registry) : Prop :=
  r.instances_count = openedCount r.instances

set_option maxRecDepth 40000

/-! ### Helper lemmas -/

/-- `getMessage` never touches the `opened` flag. -/
theorem getMessage_opened (m : Mailslot) : (getMessage m).2.opened = m.opened := by
  unfold getMessage
  split <;> rfl

/-- `getMessage` never touches the slot array. -/
theorem getMessage_messages (m : Mailslot) :
    (getMessage m).2.messages = m.messages := by
  unfold getMessage
  split <;> rfl

/-- `pushMessage` never touches the `opened` flag. -/
theorem pushMessage_opened (buff : String) (m : Mailslot) :
    (pushMessage buff m).2.opened = m.opened := by
  unfold pushMessage
  split <;> rfl

/-- Updating slot `j` of the instance array splits `openedCount`'s sum into
the new slot's contribution plus the untouched remainder. -/
theorem openedCount_update (insts : Fin INSTANCES → Mailslot)
    (j : Fin INSTANCES) (m' : Mailslot) :
    openedCount (Function.update insts j m')
      = (if m'.opened then 1 else 0)
        + ∑ i ∈ Finset.univ \ {j}, (if (insts i).opened then 1 else 0) := by
  unfold openedCount
  have hcomp :
      (fun i => if (Function.update insts j m' i).opened then (1 : Nat) else 0)
        = Function.update (fun i => if (insts i).opened then (1 : Nat) else 0) j
            (if m'.opened then 1 else 0) := by
    funext i
    by_cases h : i = j
    · subst h
      rw [Function.update_same, Function.update_same]
    · rw [Function.update_noteq h, Function.update_noteq h]
  show (∑ i : Fin INSTANCES,
      (if (Function.update insts j m' i).opened then 1 else 0)) = _
  rw [hcomp]
  exact Finset.sum_update_of_mem (Finset.mem_univ j) _ _

/-- `openedCount` splits off slot `j`'s contribution. -/
theorem openedCount_split (insts : Fin INSTANCES → Mailslot)
    (j : Fin INSTANCES) :
    openedCount insts
      = (∑ i ∈ Finset.univ \ {j}, (if (insts i).opened then 1 else 0))
        + (if (insts j).opened then 1 else 0) :=
  Finset.sum_eq_sum_diff_singleton_add (Finset.mem_univ j) _

/-- Replacing slot `j` by a slot with the same `opened` flag preserves
`registryInv` (this covers the read and write paths). -/
theorem registryInv_touch (r : Registry) (j : Fin INSTANCES) (m' : Mailslot)
    (hop : m'.opened = (r.instances j).opened) (h : registryInv r) :
    registryInv { r with instances := Function.update r.instances j m' } := by
  unfold registryInv at h ⊢
  show r.instances_count = openedCount (Function.update r.instances j m')
  rw [openedCount_update, hop]
  rw [openedCount_split r.instances j] at h
  omega

/-- `mailslot_open` preserves the registry invariant. -/
theorem registryInv_open (i : Fin INSTANCES) (r : Registry)
    (h : registryInv r) : registryInv (mailslot_open i r).2 := by
  by_cases h1 : r.instances_count = INSTANCES
  · show registryInv (if _ then _ else _ : OpenResult × Registry).2
    rw [if_pos h1]
    exact h
  by_cases h2 : (r.instances i).opened = false
  · show registryInv (if _ then _ else _ : OpenResult × Registry).2
    rw [if_neg h1, if_pos h2]
    unfold registryInv at h ⊢
    show r.instances_count + 1
      = openedCount (Function.update r.instances i
          { r.instances i with opened := true })
    rw [openedCount_update]
    rw [openedCount_split r.instances i, h2] at h
    simp only [Bool.false_eq_true, if_false, if_true] at h ⊢
    omega
  · show registryInv (if _ then _ else _ : OpenResult × Registry).2
    rw [if_neg h1, if_neg h2]
    exact h

/-- `mailslot_release` preserves the registry invariant. -/
theorem registryInv_release (i : Fin INSTANCES) (r : Registry)
    (h : registryInv r) : registryInv (mailslot_release i r).2 := by
  by_cases h1 : r.instances_count = 0
  · show registryInv (if _ then _ else _ : ReleaseResult × Registry).2
    rw [if_pos h1]
    exact h
  by_cases h2 : (r.instances i).opened = true
  · show registryInv (if _ then _ else _ : ReleaseResult × Registry).2
    rw [if_neg h1, if_pos h2]
    unfold registryInv at h ⊢
    show r.instances_count - 1
      = openedCount (Function.update r.instances i
          { r.instances i with opened := false })
    rw [openedCount_update]
    rw [openedCount_split r.instances i, h2] at h
    simp only [Bool.false_eq_true, if_false, if_true] at h ⊢
    omega
  · show registryInv (if _ then _ else _ : ReleaseResult × Registry).2
    rw [if_neg h1, if_neg h2]
    exact h

/-- `mailslot_read` preserves the registry invariant. -/
theorem registryInv_read (li : Bool) (off : Int) (i : Fin INSTANCES)
    (r : Registry) (h : registryInv r) :
    registryInv (mailslot_read li off i r).2.2 := by
  unfold mailslot_read
  split
  · exact h
  · split
    · exact h
    · exact registryInv_touch r i _ (getMessage_opened _) h

/-- `mailslot_write` preserves the registry invariant. -/
theorem registryInv_write (li : Bool) (buff : String) (i : Fin INSTANCES)
    (r : Registry) (h : registryInv r) :
    registryInv (mailslot_write li buff i r).2 := by
  unfold mailslot_write
  split
  · exact h
  · exact registryInv_touch r i _ (pushMessage_opened _ _) h

/-- Every operation preserves the registry invariant. -/
theorem registryInv_step (o : Op) (r : Registry) (h : registryInv r) :
    registryInv (stepOp o r) := by
  cases o with
  | openOp minor => exact registryInv_open minor r h
  | releaseOp minor => exact registryInv_release minor r h
  | readOp li off minor => exact registryInv_read li off minor r h
  | writeOp li buff minor => exact registryInv_write li buff minor r h

/-- The freshly initialized module satisfies the registry invariant. -/
theorem registryInv_init : registryInv initRegistry := by
  simp [registryInv, openedCount, initRegistry, initMailslot]

/-- The registry invariant holds along any fold of operations. -/
theorem registryInv_foldl (ops : List Op) (r : Registry) (h : registryInv r) :
    registryInv (ops.foldl (fun r o => stepOp o r) r) := by
  induction ops generalizing r with
  | nil => exact h
  | cons o rest ih => exact ih (stepOp o r) (registryInv_step o r h)

/-- Updating slot `i` with a slot having the same messages and count leaves
every slot's messages and count unchanged. -/
theorem update_slot_frame (insts : Fin INSTANCES → Mailslot)
    (i j : Fin INSTANCES) (m' : Mailslot)
    (hmsg : m'.messages = (insts i).messages)
    (hcnt : m'.messages_count = (insts i).messages_count) :
    (Function.update insts i m' j).messages = (insts j).messages
    ∧ (Function.update insts i m' j).messages_count
        = (insts j).messages_count := by
  by_cases h : j = i
  · subst h
    rw [Function.update_same]
    exact ⟨hmsg, hcnt⟩
  · rw [Function.update_noteq h]
    exact ⟨rfl, rfl⟩

/-- `mailslot_open` (all branches) leaves every slot's messages and
occupancy unchanged. -/
theorem mailslot_open_slot_frame (i j : Fin INSTANCES) (r : Registry) :
    ((mailslot_open i r).2.instances j).messages = (r.instances j).messages
    ∧ ((mailslot_open i r).2.instances j).messages_count
        = (r.instances j).messages_count := by
  unfold mailslot_open
  split
  · exact ⟨rfl, rfl⟩
  split
  · exact update_slot_frame r.instances i j _ rfl rfl
  · exact ⟨rfl, rfl⟩

/-- `mailslot_release` (all branches) leaves every slot's messages and
occupancy unchanged. -/
theorem mailslot_release_slot_frame (i j : Fin INSTANCES) (r : Registry) :
    ((mailslot_release i r).2.instances j).messages = (r.instances j).messages
    ∧ ((mailslot_release i r).2.instances j).messages_count
        = (r.instances j).messages_count := by
  unfold mailslot_release
  split
  · exact ⟨rfl, rfl⟩
  split
  · exact update_slot_frame r.instances i j _ rfl rfl
  · exact ⟨rfl, rfl⟩

/-! ### Concrete states used by the claims -/

/-- Fresh mailslot after pushing `"a"`. -/
def pushA : Mailslot := (pushMessage "a" initMailslot).2

/-- After pushing `"a"` then `"b"`. -/
def pushAB : Mailslot := (pushMessage "b" pushA).2

/-- After pushing `"a"`, `"b"`, `"c"`. -/
def pushABC : Mailslot := (pushMessage "c" pushAB).2

/-- A mailslot whose occupancy counter is at capacity. -/
def fullSlot : Mailslot :=
  { initMailslot with messages_count := MAILSLOT_STORAGE }

/-- A registry whose mailslot 0 is full (as reached by 256 accepted
writes). -/
def fullMboxReg : Registry :=
  { instances := fun _ => fullSlot
    instances_count := 0 }

/-- The sequence of operations opening every one of the 256 mailslots. -/
def allOpens : List Op := (List.finRange INSTANCES).map Op.openOp

/-- A buffer one byte longer than `MESSAGE_SIZE`. -/
def oversizedMsg : String := String.mk (List.replicate (MESSAGE_SIZE + 1) 'a')

/-! ### Claims -/

/-- C1: pop returns messages in LIFO (stack) order.  Pushing `"a"`, `"b"`,
`"c"` into a fresh mailslot and popping three times yields `"c"`, `"b"`,
`"a"`; in general, on a non-empty mailslot `getMessage` returns the message
stored in slot `messages_count - 1` (copying `len` bytes of its content and
reporting its length) and then decrements `messages_count`. -/
theorem getMessage_pop_is_lifo :
    ((getMessage pushABC).1.buff = "c"
      ∧ (getMessage (getMessage pushABC).2).1.buff = "b"
      ∧ (getMessage (getMessage (getMessage pushABC).2).2).1.buff = "a")
    ∧ (∀ m : Mailslot, m.messages_count ≠ 0 →
        (getMessage m).1.buff
            = (m.messages.getD (m.messages_count - 1) default).content.take
                (m.messages.getD (m.messages_count - 1) default).len
          ∧ (getMessage m).1.ret_len
              = (m.messages.getD (m.messages_count - 1) default).len
          ∧ (getMessage m).2.messages_count = m.messages_count - 1) := by
  constructor
  · exact ⟨rfl, rfl, rfl⟩
  · intro m hm
    unfold getMessage
    rw [if_neg hm]
    exact ⟨rfl, rfl, rfl⟩

/-- Witness for C1 at the concrete state holding `"a"`, `"b"`, `"c"`. -/
theorem getMessage_pop_is_lifo_witness :
    pushABC.messages_count ≠ 0
      ∧ (getMessage pushABC).2.messages_count = pushABC.messages_count - 1 :=
  ⟨by decide, (getMessage_pop_is_lifo.2 pushABC (by decide)).2.2⟩

/-- C3: `mailslot_release` on a mailslot whose `opened` flag is false, or
when `instances_count == 0` globally, fails with `NotOpen` and changes
nothing; otherwise it clears `opened`, decrements `instances_count` and
returns success.  In particular a release without a preceding successful
open fails with `NotOpen`. -/
theorem mailslot_release_not_open :
    ∀ (r : Registry) (i : Fin INSTANCES),
      (((r.instances i).opened = false ∨ r.instances_count = 0) →
        mailslot_release i r = (ReleaseResult.notOpen, r))
      ∧ ((r.instances i).opened = true → r.instances_count ≠ 0 →
          (mailslot_release i r).1 = ReleaseResult.ok
          ∧ ((mailslot_release i r).2.instances i).opened = false
          ∧ (mailslot_release i r).2.instances_count
              = r.instances_count - 1) := by
  intro r i
  constructor
  · intro h
    unfold mailslot_release
    by_cases h1 : r.instances_count = 0
    · rw [if_pos h1]
    · rw [if_neg h1]
      obtain hop | hcnt := h
      · rw [if_neg (by simp [hop])]
      · exact absurd hcnt h1
  · intro hop hcnt
    unfold mailslot_release
    rw [if_neg hcnt, if_pos hop]
    refine ⟨rfl, ?_, rfl⟩
    show ((Function.update r.instances i
        { r.instances i with opened := false }) i).opened = false
    rw [Function.update_same]

/-- Witness for C3: releasing mailslot 0 of the fresh registry fails with
`NotOpen` and changes nothing. -/
theorem mailslot_release_not_open_witness :
    mailslot_release 0 initRegistry = (ReleaseResult.notOpen, initRegistry) :=
  (mailslot_release_not_open initRegistry 0).1 (Or.inr rfl)

/-- C4: `pushMessage` on a full mailslot fails with `MailboxFull` and
returns the state entirely unchanged (same `messages_count`, same slot
contents and lengths): the message is discarded with no partial change. -/
theorem pushMessage_full_rejected :
    ∀ (m : Mailslot) (buff : String),
      m.messages_count = MAILSLOT_STORAGE →
      pushMessage buff m = (PushResult.mailboxFull, m) := by
  intro m buff h
  unfold pushMessage
  rw [if_pos h]

/-- Witness for C4 at a concrete full mailslot. -/
theorem pushMessage_full_rejected_witness :
    fullSlot.messages_count = MAILSLOT_STORAGE
      ∧ pushMessage "x" fullSlot = (PushResult.mailboxFull, fullSlot) :=
  ⟨rfl, pushMessage_full_rejected fullSlot "x" rfl⟩

/-- C5: popping an empty mailslot yields the literal placeholder
`"No message to read\n"` with return status `0` (success, not an error)
and leaves the mailslot — in particular `messages_count = 0` — unchanged. -/
theorem getMessage_empty_indicator :
    ∀ m : Mailslot, m.messages_count = 0 →
      getMessage m
        = ({ buff := noMessageText, ret_len := noMessageText.length,
             ret := 0 }, m) := by
  intro m h
  unfold getMessage
  rw [if_pos h]

/-- Witness for C5 at the fresh (empty) mailslot. -/
theorem getMessage_empty_indicator_witness :
    initMailslot.messages_count = 0
      ∧ getMessage initMailslot
          = ({ buff := noMessageText, ret_len := noMessageText.length,
               ret := 0 }, initMailslot) :=
  ⟨rfl, getMessage_empty_indicator initMailslot rfl⟩

/-- C6: the registry invariant — `instances_count` equals the number of
mailslots with `opened == true` — holds after every sequence of
open/release/read/write operations from the initial state, and every single
operation preserves it. -/
theorem registry_open_count_invariant :
    (∀ ops : List Op, registryInv (runOps ops))
    ∧ (∀ (o : Op) (r : Registry), registryInv r → registryInv (stepOp o r)) := by
  constructor
  · intro ops
    exact registryInv_foldl ops initRegistry registryInv_init
  · intro o r h
    exact registryInv_step o r h

/-- Witness for C6: one open step from the initial state. -/
theorem registry_open_count_invariant_witness :
    registryInv (stepOp (Op.openOp 0) initRegistry) :=
  registry_open_count_invariant.2 (Op.openOp 0) initRegistry
    (by simp [registryInv, openedCount, initRegistry, initMailslot])

/-- C10: a read whose file offset is positive returns `0` immediately: the
result does not depend on the guard (the same for an interrupted and an
uninterrupted lock acquisition, which is never consulted), nothing is
written to the caller's buffer, and the whole registry state — every
`opened` flag, `messages_count` and slot — is unchanged, so no message is
consumed. -/
theorem mailslot_read_nonzero_offset_noop :
    ∀ (lockInterrupted : Bool) (off : Int) (minor : Fin INSTANCES)
      (r : Registry), 0 < off →
      mailslot_read lockInterrupted off minor r = (0, none, r) := by
  intro li off minor r h
  unfold mailslot_read
  rw [if_pos h]

/-- Witness for C10 at offset 1 on the fresh registry, with the lock
acquisition marked as interrupted (it is never reached). -/
theorem mailslot_read_nonzero_offset_noop_witness :
    (0 : Int) < 1
      ∧ mailslot_read true 1 0 initRegistry = (0, none, initRegistry) :=
  ⟨by decide,
    mailslot_read_nonzero_offset_noop true 1 0 initRegistry (by decide)⟩

/-- C9: neither `mailslot_open` nor `mailslot_release` (successful or
failed) touches stored messages: every mailslot's `messages_count` and slot
array are unchanged, `clearMailslot` is a no-op, and messages pushed before
a release are still there after a release followed by a reopen. -/
theorem open_release_preserve_messages :
    ∀ (r : Registry) (i j : Fin INSTANCES),
      ((mailslot_open i r).2.instances j).messages = (r.instances j).messages
      ∧ ((mailslot_open i r).2.instances j).messages_count
          = (r.instances j).messages_count
      ∧ ((mailslot_release i r).2.instances j).messages
          = (r.instances j).messages
      ∧ ((mailslot_release i r).2.instances j).messages_count
          = (r.instances j).messages_count
      ∧ (clearMailslot i r).2 = r
      ∧ ((mailslot_open i ((mailslot_release i r).2)).2.instances j).messages
          = (r.instances j).messages
      ∧ ((mailslot_open i ((mailslot_release i r).2)).2.instances
            j).messages_count
          = (r.instances j).messages_count := by
  intro r i j
  obtain ⟨ho1, ho2⟩ := mailslot_open_slot_frame i j r
  obtain ⟨hr1, hr2⟩ := mailslot_release_slot_frame i j r
  obtain ⟨hro1, hro2⟩ := mailslot_open_slot_frame i j (mailslot_release i r).2
  exact ⟨ho1, ho2, hr1, hr2, rfl, hro1.trans hr1, hro2.trans hr2⟩

/-- On a not-full registry, opening an already-open mailslot takes the
`AlreadyOpen` branch and changes nothing. -/
theorem mailslot_open_already (i : Fin INSTANCES) (r : Registry)
    (h : r.instances_count ≠ INSTANCES)
    (hop : (r.instances i).opened = true) :
    mailslot_open i r = (OpenResult.alreadyOpen, r) := by
  unfold mailslot_open
  rw [if_neg h, if_neg (by simp [hop])]

/-- C2 (amended): the capacity check of `mailslot_open` runs FIRST.  When
`instances_count ≠ INSTANCES`, an open on an already-open mailslot fails
with `AlreadyOpen` and an open on a closed one succeeds, sets `opened`,
increments `instances_count` — and a second open then yields `AlreadyOpen`
provided the registry did not just become full.  But when
`instances_count = INSTANCES`, `mailslot_open` fails with
`CapacityExceeded` even on an already-open mailslot. -/
theorem mailslot_open_already_open_amended :
    (∀ (r : Registry) (i : Fin INSTANCES),
        r.instances_count = INSTANCES →
        mailslot_open i r = (OpenResult.capacityExceeded, r))
    ∧ (∀ (r : Registry) (i : Fin INSTANCES),
        r.instances_count ≠ INSTANCES →
        ((r.instances i).opened = true →
            mailslot_open i r = (OpenResult.alreadyOpen, r))
        ∧ ((r.instances i).opened = false →
            (mailslot_open i r).1 = OpenResult.ok
            ∧ ((mailslot_open i r).2.instances i).opened = true
            ∧ (mailslot_open i r).2.instances_count = r.instances_count + 1
            ∧ ((mailslot_open i r).2.instances_count ≠ INSTANCES →
                (mailslot_open i ((mailslot_open i r).2)).1
                  = OpenResult.alreadyOpen))) := by
  constructor
  · intro r i h
    unfold mailslot_open
    rw [if_pos h]
  · intro r i h
    constructor
    · intro hop
      exact mailslot_open_already i r h hop
    · intro hop
      have h1 : mailslot_open i r
          = (OpenResult.ok,
              { instances := Function.update r.instances i
                  { r.instances i with opened := true }
                instances_count := r.instances_count + 1 }) := by
        unfold mailslot_open
        rw [if_neg h, if_pos hop]
      have hopen2 : ((mailslot_open i r).2.instances i).opened = true := by
        rw [h1]
        show ((Function.update r.instances i
            { r.instances i with opened := true }) i).opened = true
        rw [Function.update_same]
      refine ⟨by rw [h1], hopen2, by rw [h1], ?_⟩
      intro h2
      rw [mailslot_open_already i (mailslot_open i r).2 h2 hopen2]

/-- Witness for C2 (amended): the capacity check passes on the fresh
registry, mailslot 0 is closed, the first open succeeds and the second
yields `AlreadyOpen`. -/
theorem mailslot_open_already_open_amended_witness :
    initRegistry.instances_count ≠ INSTANCES
    ∧ (initRegistry.instances 0).opened = false
    ∧ (mailslot_open 0 initRegistry).1 = OpenResult.ok
    ∧ (mailslot_open 0 ((mailslot_open 0 initRegistry).2)).1
        = OpenResult.alreadyOpen :=
  ⟨by decide, rfl,
    ((mailslot_open_already_open_amended.2 initRegistry 0 (by decide)).2
        rfl).1,
    ((mailslot_open_already_open_amended.2 initRegistry 0 (by decide)).2
        rfl).2.2.2 (by decide)⟩

/-- C2 counterexample: after the (reachable) sequence opening all 256
mailslots, mailslot 0 has `opened = true`, yet a further open fails with
`CapacityExceeded` — not `AlreadyOpen` as the claim states. -/
theorem mailslot_open_full_registry_counterexample :
    ((runOps allOpens).instances 0).opened = true
    ∧ (mailslot_open 0 (runOps allOpens)).1 = OpenResult.capacityExceeded
    ∧ (mailslot_open 0 (runOps allOpens)).1 ≠ OpenResult.alreadyOpen := by
  have h2 : (mailslot_open 0 (runOps allOpens)).1
      = OpenResult.capacityExceeded := rfl
  refine ⟨rfl, h2, ?_⟩
  rw [h2]
  decide

/-- C7: `mailslot_write` swallows the `MailboxFull` failure.  On a registry
whose mailslot 0 is full, the underlying `pushMessage` rejects the one-byte
message `"x"` with `MailboxFull`, yet `mailslot_write` returns `1` (the
full byte count, i.e. success) and the state is unchanged — the caller is
never told the message was discarded. -/
theorem mailslot_write_swallows_mailbox_full :
    (pushMessage "x" (fullMboxReg.instances 0)).1 = PushResult.mailboxFull
    ∧ (mailslot_write false "x" 0 fullMboxReg).1 = 1
    ∧ (mailslot_write false "x" 0 fullMboxReg).2.instances
        = fullMboxReg.instances := by
  refine ⟨rfl, rfl, ?_⟩
  show Function.update fullMboxReg.instances 0 fullSlot
      = fullMboxReg.instances
  exact Function.update_eq_self 0 fullMboxReg.instances

/-- C8: `pushMessage` performs no bound check against `MESSAGE_SIZE`: a
buffer of 257 bytes (> `MESSAGE_SIZE` = 256) is neither rejected nor
truncated — the push succeeds and the slot records the full 257-byte
content and length, i.e. the copy ran past the slot's 256-byte storage. -/
theorem pushMessage_oversized_unchecked :
    MESSAGE_SIZE < oversizedMsg.length
    ∧ (pushMessage oversizedMsg initMailslot).1 = PushResult.ok
    ∧ ((pushMessage oversizedMsg initMailslot).2.messages.getD 0
          default).content
        = oversizedMsg
    ∧ MESSAGE_SIZE
        < ((pushMessage oversizedMsg initMailslot).2.messages.getD 0
              default).len := by
  refine ⟨by decide, rfl, rfl, by decide⟩
